/-
Verification of the agent task orchestration core of
`backend/app/services/{agent,gmail_tools,calendar_tools,hubspot_tools}.py`.

The Python services are shallowly embedded as pure Lean functions.
External effects (database queries, remote HTTP calls, the OpenAI planner)
are passed in explicitly as environment records; a step that can raise a
Python exception is modelled as `Except String α` (the `String` is the
exception message, `str(e)`).  `try/except` blocks are modelled by matching
on the `Except` value at the position of the first raising statement the
block guards.
-/
import Mathlib

namespace AgentCore

/-! ## String helpers

Executable substring / tokenisation helpers mirroring the Python string
operations used by the services (`in`, `.contains` SQL filters, `.lower()`,
`.split()`, `.strip()`). -/

/-- `startsWithChars n h` : the char list `n` is an initial segment of `h`. -/
def startsWithChars : List Char → List Char → Bool
  | [], _ => true
  | _ :: _, [] => false
  | a :: as, b :: bs => a == b && startsWithChars as bs

/-- `charsContain n h` : the char list `n` occurs contiguously inside `h`. -/
def charsContain (n : List Char) : List Char → Bool
  | [] => startsWithChars n []
  | c :: t => startsWithChars n (c :: t) || charsContain n t

/-- `strContains hay needle` embeds Python `needle in hay` (and the SQL
`column.contains(needle)` filters, which compile to `LIKE %needle%`). -/
def strContains (hay needle : String) : Bool :=
  charsContain needle.toList hay.toList

/-- Split a char list at every space (keeping empty pieces, as Python
`str.split(" ")` would). -/
def splitSpacesAux : List Char → List Char → List String
  | [], acc => [String.mk acc.reverse]
  | c :: t, acc =>
      if c = ' ' then String.mk acc.reverse :: splitSpacesAux t []
      else splitSpacesAux t (c :: acc)

/-- Python `s.lower().split()`: lowercase, split on whitespace, drop empty
tokens (embedded with the space character as separator). -/
def wordsOf (s : String) : List String :=
  (splitSpacesAux (s.data.map Char.toLower) []).filter (fun w => w ≠ "")

/-- Python `" ".join(words)`. -/
def joinSpace : List String → String
  | [] => ""
  | [w] => w
  | w :: t => w ++ " " ++ joinSpace t

/-! ## JSON values and argument dictionaries

Planner proposals arrive as JSON argument bags (`json.loads` of the tool
call's `arguments` string). -/

/-- A JSON value as far as the tool schemas go. -/
inductive JValue where
  | str (s : String)
  | num (n : Int)
  | arr (xs : List JValue)
  | jbool (b : Bool)
  | null
  deriving Repr

/-- An argument dictionary: key/value pairs (Python `Dict[str, Any]`). -/
abbrev ArgDict := List (String × JValue)

/-- Key lookup in an argument dictionary. -/
def argLookup (args : ArgDict) (k : String) : Option JValue :=
  match args with
  | [] => none
  | (k', v) :: t => if k' = k then some v else argLookup t k

/-- The key set of an argument dictionary. -/
def argKeys (args : ArgDict) : List String :=
  args.map (fun kv => kv.1)

/-! ## Outcomes

Every adapter returns a Python dict with a `success` key; the embedding
collects the fields the various adapters populate into one record
(absent keys are `none` / `[]`). -/

/-- A candidate contact returned by `find_contact_info`
(`{"name", "email", "source", "last_contact"}`). -/
structure Contact where
  name : String
  email : String
  source : String
  lastContact : String
  deriving Repr, DecidableEq

/-- A generic result row (email / calendar / CRM search hits), embedded as a
string key/value dict. -/
abbrev RowDict := List (String × String)

/-- The dict an adapter returns.  `success` is always present; the other
fields embed the keys the individual adapters attach. -/
structure Outcome where
  success : Bool
  error : Option String := none
  results : List Contact := []
  items : List RowDict := []
  count : Option Nat := none
  info : List (String × String) := []
  deriving Repr, DecidableEq

/-! ## Gmail adapter (`gmail_tools.py`) -/

/-- A `GmailEmail` row of the owner (the `user_id` filter is embedded by the
environment holding only the owner's rows). -/
structure EmailMsg where
  gmailId : String
  subject : String
  sender : String
  snippet : String
  body : Option String
  dateSent : String
  deriving Repr, DecidableEq

/-- Environment of `GmailTools`: the owner's linked Google account
(presence), the `GmailEmail` table query (may raise), and the remote
`messages().send` call (ok = message id, error = raised exception). -/
structure GmailEnv where
  account : Bool
  emailRows : Except String (List EmailMsg)
  sendResult : Except String String

/-- `GmailTools.send_email`.  `_get_gmail_service` raises
`"No Google account connected"` when no account row exists; every raise is
caught by the adapter's `except` and converted to a failure outcome. -/
def send_email (env : GmailEnv) (toAddr subject _body : String) : Outcome :=
  if ¬env.account then
    { success := false, error := some "No Google account connected" }
  else
    match env.sendResult with
    | .error e => { success := false, error := some e }
    | .ok mid =>
        { success := true
          info := [("message_id", mid), ("to", toAddr), ("subject", subject)] }

/-- The row dict `search_emails` builds per matching email. -/
def emailRow (e : EmailMsg) : RowDict :=
  [("id", e.gmailId), ("subject", e.subject), ("sender", e.sender),
   ("snippet", e.snippet), ("date", e.dateSent)]

/-- `GmailTools.search_emails`: local substring filter on subject/body,
`limit` rows; the DB query is the raising step the `try` guards. -/
def search_emails (env : GmailEnv) (query : String) (limit : Nat := 10) :
    Outcome :=
  match env.emailRows with
  | .error e => { success := false, error := some e }
  | .ok rows =>
      let hits := (rows.filter (fun r =>
        strContains r.subject query ||
          strContains (r.body.getD "") query)).take limit
      { success := true, items := hits.map emailRow,
        count := some (hits.map emailRow).length }

/-- Does an email match the name tokens?  (`any part in sender_lower or
part in body_lower`; a missing/empty body compares against `""`). -/
def emailMatchesName (parts : List String) (e : EmailMsg) : Bool :=
  parts.any (fun p =>
    strContains e.sender.toLower p ||
      strContains (e.body.getD "").toLower p)

/-- Candidate extraction from a matching email's sender header:
`sender.split('<')`; with an angle-bracket form the address is the part
after `<` with `>` removed and trimmed, else the whole sender field. -/
def contactOfEmail (e : EmailMsg) : Contact :=
  match e.sender.splitOn "<" with
  | _ :: second :: _ =>
      { name := ((e.sender.splitOn "<").headD "").trim
        email := (second.replace ">" "").trim
        source := "gmail"
        lastContact := e.dateSent }
  | _ =>
      { name := e.sender, email := e.sender, source := "gmail"
        lastContact := e.dateSent }

/-- All candidates matched by `find_contact_info` before the `[:3]` cut. -/
def matchedContacts (rows : List EmailMsg) (name : String) : List Contact :=
  ((rows.filter (emailMatchesName (wordsOf name))).map contactOfEmail)

/-- `GmailTools.find_contact_info`: scan the owner's archived emails for the
name tokens, return at most the first 3 candidates; the DB query is the
raising step the `try` guards. -/
def find_contact_info (env : GmailEnv) (name : String) : Outcome :=
  match env.emailRows with
  | .error e => { success := false, error := some e }
  | .ok rows =>
      let contacts := matchedContacts rows name
      { success := true, results := contacts.take 3,
        count := some contacts.length }

/-! ## Calendar adapter (`calendar_tools.py`) -/

/-- A local `Meeting` row of the owner. -/
structure MeetingRow where
  id : Nat
  title : String
  startIso : String
  endIso : String
  deriving Repr, DecidableEq

/-- Environment of `CalendarTools`: linked Google account, the remote
`events().insert` call (ok = event id), the local mirror `add`/`commit`
(may raise) and the `Meeting` table query (may raise). -/
structure CalEnv where
  account : Bool
  insertResult : Except String String
  localCommit : Except String Unit
  meetingRows : Except String (List MeetingRow)

/-- `CalendarTools.create_event`: remote insert then local mirror; the
`try` guards the credential fetch, the remote call and the mirror commit. -/
def create_event (env : CalEnv) (title startTime endTime : String)
    (attendees : List String := []) : Outcome :=
  if ¬env.account then
    { success := false, error := some "No Google account connected" }
  else
    match env.insertResult with
    | .error e => { success := false, error := some e }
    | .ok evId =>
        match env.localCommit with
        | .error e => { success := false, error := some e }
        | .ok _ =>
            { success := true
              info := [("event_id", evId), ("title", title),
                       ("start_time", startTime), ("end_time", endTime)]
              items := attendees.map (fun a => [("attendee", a)]) }

/-- The row dict `search_events` builds per matching meeting. -/
def meetingRowDict (m : MeetingRow) : RowDict :=
  [("id", toString m.id), ("title", m.title),
   ("start_time", m.startIso), ("end_time", m.endIso)]

/-- `CalendarTools.search_events`: local title-substring filter plus
optional ISO date range bounds, limit 10. -/
def search_events (env : CalEnv) (query : String)
    (startDate endDate : Option String := none) : Outcome :=
  match env.meetingRows with
  | .error e => { success := false, error := some e }
  | .ok rows =>
      let hits := (rows.filter (fun m =>
        strContains m.title query &&
          (match startDate with | some s => decide (s ≤ m.startIso) | none => true) &&
          (match endDate with | some e => decide (m.endIso ≤ e) | none => true))).take 10
      { success := true, items := hits.map meetingRowDict,
        count := some hits.length }

/-! ## HubSpot adapter (`hubspot_tools.py`) -/

/-- A local `HubspotContact` row of the owner. -/
structure HsContactRow where
  localId : Nat
  hubspotId : String
  email : String
  firstName : String
  lastName : String
  company : String
  deriving Repr, DecidableEq

/-- An HTTP response of the HubSpot API (`status_code`, `text`, and the
`"id"` field of the JSON body when present). -/
structure HttpResp where
  status : Nat
  text : String
  bodyId : String
  deriving Repr, DecidableEq

/-- A remote HubSpot call the adapter issues (observable side effects). -/
inductive RemoteCall where
  | contactPost (email : String)
  | notePost (contactHsId : String) (note : String)
  deriving Repr, DecidableEq

/-- Environment of `HubspotTools`: linked HubSpot account, the owner's
local `HubspotContact` rows (query may raise), the contact/note POST
responses (may raise), and the local mirror `add`/`commit`. -/
structure HsEnv where
  account : Bool
  contactRows : Except String (List HsContactRow)
  contactPost : Except String HttpResp
  notePost : Except String HttpResp
  localCommit : Except String Unit

/-- `HubspotTools.add_note`: looks the contact up in local storage first and
returns `"Contact not found"` without any remote call when absent; the
second component lists the remote calls issued.  The credential fetch, the
POST and the mirror commit are all inside the `try`. -/
def add_note (env : HsEnv) (contactEmail note : String) :
    Outcome × List RemoteCall :=
  match env.contactRows with
  | .error e => ({ success := false, error := some e }, [])
  | .ok rows =>
      match rows.find? (fun c => c.email == contactEmail) with
      | none => ({ success := false, error := some "Contact not found" }, [])
      | some contact =>
          if ¬env.account then
            ({ success := false, error := some "No HubSpot account connected" },
             [])
          else
            match env.notePost with
            | .error e =>
                ({ success := false, error := some e },
                 [.notePost contact.hubspotId note])
            | .ok resp =>
                if resp.status = 201 then
                  match env.localCommit with
                  | .error e =>
                      ({ success := false, error := some e },
                       [.notePost contact.hubspotId note])
                  | .ok _ =>
                      ({ success := true
                         info := [("note_id", resp.bodyId),
                                  ("contact_email", contactEmail),
                                  ("note", note)] },
                       [.notePost contact.hubspotId note])
                else
                  ({ success := false
                     error := some ("HubSpot API error: " ++ resp.text) },
                   [.notePost contact.hubspotId note])

/-- `HubspotTools.create_contact`: credential fetch, remote POST, local
mirror; the chained `add_note` (when a note argument is given) has its
result discarded by the source, so the outcome does not depend on it. -/
def create_contact (env : HsEnv) (email : String)
    (firstName lastName _company _note : Option String := none) : Outcome :=
  if ¬env.account then
    { success := false, error := some "No HubSpot account connected" }
  else
    match env.contactPost with
    | .error e => { success := false, error := some e }
    | .ok resp =>
        if resp.status = 201 then
          match env.localCommit with
          | .error e => { success := false, error := some e }
          | .ok _ =>
              { success := true
                info := [("contact_id", resp.bodyId), ("email", email),
                         ("name", ((firstName.getD "") ++ " " ++
                           (lastName.getD "")).trim)] }
        else
          { success := false
            error := some ("HubSpot API error: " ++ resp.text) }

/-- The row dict `search_contacts` builds per matching contact. -/
def hsRowDict (c : HsContactRow) : RowDict :=
  [("id", c.hubspotId), ("email", c.email), ("first_name", c.firstName),
   ("last_name", c.lastName), ("company", c.company)]

/-- `HubspotTools.search_contacts`: fails closed with a typed
"not connected" outcome (an early `return`, not a raise) when no HubSpot
account is linked, else a local substring filter, limit 10. -/
def search_contacts (env : HsEnv) (query : String) : Outcome :=
  if ¬env.account then
    { success := false
      error := some "HubSpot not connected. Please connect HubSpot first."
      results := [], count := some 0 }
  else
    match env.contactRows with
    | .error e => { success := false, error := some e }
    | .ok rows =>
        let hits := (rows.filter (fun c =>
          strContains c.email query || strContains c.firstName query ||
            strContains c.lastName query)).take 10
        { success := true, items := hits.map hsRowDict,
          count := some hits.length }

/-! ## Tool dispatch (`agent.py`, `execute_tool`)

`execute_tool` discriminates on the tool-name string in a single
if/elif chain and calls the matching adapter with `**arguments`.  Python
keyword binding succeeds iff every required parameter is supplied and every
supplied key names a declared parameter; a mismatch raises `TypeError`,
which the surrounding `try` converts to an `{"error": ...}` dict.  No
validation of the argument *values* against the JSON schemas declared in
`get_available_tools` happens anywhere. -/

/-- The eight adapter methods reachable from `execute_tool`. -/
inductive AdapterId where
  | sendEmail | searchEmails | createCalendarEvent | searchCalendar
  | createHubspotContact | searchHubspotContacts | addHubspotNote
  | findContactInfo
  deriving Repr, DecidableEq

/-- Declared JSON schema types (`get_available_tools`). -/
inductive JTy where
  | jstr | jint | jstrArr
  deriving Repr, DecidableEq

/-- Per tool: the adapter it dispatches to, the declared parameters with
their schema types, and the required parameter names.  The Python keyword
parameter lists of the adapters coincide with the schema property lists. -/
def toolSig (name : String) :
    Option (AdapterId × List (String × JTy) × List String) :=
  if name = "send_email" then
    some (.sendEmail,
      [("to", .jstr), ("subject", .jstr), ("body", .jstr)],
      ["to", "subject", "body"])
  else if name = "search_emails" then
    some (.searchEmails, [("query", .jstr), ("limit", .jint)], ["query"])
  else if name = "create_calendar_event" then
    some (.createCalendarEvent,
      [("title", .jstr), ("start_time", .jstr), ("end_time", .jstr),
       ("attendees", .jstrArr)],
      ["title", "start_time", "end_time"])
  else if name = "search_calendar" then
    some (.searchCalendar,
      [("query", .jstr), ("start_date", .jstr), ("end_date", .jstr)],
      ["query"])
  else if name = "create_hubspot_contact" then
    some (.createHubspotContact,
      [("email", .jstr), ("first_name", .jstr), ("last_name", .jstr),
       ("company", .jstr), ("note", .jstr)],
      ["email"])
  else if name = "search_hubspot_contacts" then
    some (.searchHubspotContacts, [("query", .jstr)], ["query"])
  else if name = "add_hubspot_note" then
    some (.addHubspotNote, [("contact_email", .jstr), ("note", .jstr)],
      ["contact_email", "note"])
  else if name = "find_contact_info" then
    some (.findContactInfo, [("name", .jstr)], ["name"])
  else none

/-- The closed capability set (the names the if/elif chain recognises). -/
def knownToolNames : List String :=
  ["send_email", "search_emails", "create_calendar_event", "search_calendar",
   "create_hubspot_contact", "search_hubspot_contacts", "add_hubspot_note",
   "find_contact_info"]

/-- Python keyword binding for `adapter(**arguments)`: every required
parameter present, every supplied key declared.  Values are not inspected. -/
def bindsOk (decl : List (String × JTy)) (required : List String)
    (args : ArgDict) : Bool :=
  required.all (fun k => (argLookup args k).isSome) &&
    args.all (fun kv => decl.any (fun d => d.1 == kv.1))

/-- Does a JSON value match a declared schema type? -/
def tyMatches : JTy → JValue → Bool
  | .jstr, .str _ => true
  | .jint, .num _ => true
  | .jstrArr, .arr xs => xs.all (fun v => match v with | .str _ => true | _ => false)
  | _, _ => false

/-- Structural validation of an argument dict against the tool's declared
JSON schema from `get_available_tools` (required keys present, no
undeclared keys, every value of the declared type).  The source *declares*
these schemas but never checks arguments against them. -/
def schemaValidates (name : String) (args : ArgDict) : Bool :=
  match toolSig name with
  | none => false
  | some (_, decl, required) =>
      required.all (fun k => (argLookup args k).isSome) &&
        args.all (fun kv =>
          match decl.find? (fun d => d.1 == kv.1) with
          | some d => tyMatches d.2 kv.2
          | none => false)

/-- What `execute_tool` does with a proposal before any adapter body runs. -/
inductive Dispatch where
  | executed (a : AdapterId)
  | bindMismatch (name : String)
  | unknown (name : String)
  deriving Repr, DecidableEq

/-- The dispatch decision of `execute_tool`: unknown names fall through the
if/elif chain; known names bind keyword arguments (a mismatch raises a
`TypeError` caught by `execute_tool`'s `try`); otherwise the adapter runs. -/
def dispatchTool (name : String) (args : ArgDict) : Dispatch :=
  match toolSig name with
  | none => .unknown name
  | some (a, decl, required) =>
      if bindsOk decl required args then .executed a else .bindMismatch name

/-- The dict `execute_tool` returns: adapters yield a `success`-keyed
outcome dict; the unknown-tool branch and the `except` branch yield a bare
`{"error": ...}` dict with no `success` key. -/
inductive ToolResult where
  | outcome (o : Outcome)
  | errorDict (msg : String)
  deriving Repr, DecidableEq

/-- `result.get("success")` truthiness (missing key is falsy). -/
def getSuccess : ToolResult → Bool
  | .outcome o => o.success
  | .errorDict _ => false

/-- `result.get("results")` (missing key gives the empty, falsy list). -/
def getResults : ToolResult → List Contact
  | .outcome o => o.results
  | .errorDict _ => []

/-- Stand-in for the interpreter-generated `TypeError` text produced by a
keyword-binding mismatch; no claim inspects this message. -/
def typeErrorMsg (name : String) : String :=
  name ++ "() received invalid keyword arguments"

/-- `AgentService.execute_tool`, with the adapter bodies abstracted by an
oracle (the adapters' own behaviour is modelled separately above): unknown
tool → `{"error": "Unknown tool: <name>"}`; binding mismatch → caught
`TypeError` → `{"error": ...}`; else the adapter's outcome dict. -/
def execute_tool (oracle : AdapterId → ArgDict → Outcome)
    (name : String) (args : ArgDict) : ToolResult :=
  match dispatchTool name args with
  | .executed a => .outcome (oracle a args)
  | .bindMismatch n => .errorDict (typeErrorMsg n)
  | .unknown n => .errorDict ("Unknown tool: " ++ n)

/-! ## Task orchestrator (`agent.py`, `process_task`) -/

/-- One entry of `context["tool_results"]`:
`{"tool": ..., "arguments": ..., "result": ...}`. -/
structure TraceEntry where
  tool : String
  arguments : ArgDict
  result : ToolResult
  deriving Repr

/-- The `AgentTask.status` strings. -/
inductive TaskStatus where
  | pending | in_progress | completed | waiting_response | failed
  deriving Repr, DecidableEq

/-- The fields of an `AgentTask` row the orchestrator touches.
`toolResults` is `context["tool_results"]` (`none` until first written). -/
structure Task where
  status : TaskStatus
  result : Option String := none
  toolResults : Option (List TraceEntry) := none
  description : String
  deriving Repr

/-- Name extraction from the task description (`process_task`, fallback
block): the token sequence after the first `"with"` that is followed by at
least one more token. -/
def extractAfterWith : List String → Option String
  | [] => none
  | w :: rest =>
      if w = "with" ∧ rest ≠ [] then some (joinSpace rest)
      else extractAfterWith rest

/-- The fallback name: extracted from the lowercased description, with the
hard-coded default `"selina jones"` (source comment: "Default for testing")
when no usable `"with"` token exists.  Task context is never consulted. -/
def extract_name (descr : String) : String :=
  (extractAfterWith (wordsOf descr)).getD "selina jones"

/-- `hubspot_failed`: some trace entry is a `search_hubspot_contacts` call
whose result is not successful. -/
def hubspotFailed (rs : List TraceEntry) : Bool :=
  rs.any (fun r => r.tool == "search_hubspot_contacts" && !getSuccess r.result)

/-- The templated availability-request body sent by the fallback block of
`process_task` (line 291). -/
def meetingRequestBody (contactName : String) : String :=
  "Hi " ++ contactName ++
    ",\n\nI\x27d like to schedule an appointment with you. Are you available for a meeting this week?\n\nPlease let me know what times work best.\n\nBest regards"

/-- The templated body used by `_simulate_appointment_scheduling`
(line 361; it differs from the fallback block's in one phrase). -/
def meetingRequestBodySim (contactName : String) : String :=
  "Hi " ++ contactName ++
    ",\n\nI\x27d like to schedule an appointment with you. Are you available for a meeting this week?\n\nPlease let me know what times work best for you.\n\nBest regards"

/-- The fallback block of `process_task` (lines 266-301): when some CRM
search outcome failed, append exactly one `find_contact_info` call; when it
succeeds with a non-empty candidate list, append exactly one `send_email`
call to the first candidate (the trace records a truncated body string,
while the executed call carries the full templated body). -/
def fallbackInject (oracle : AdapterId → ArgDict → Outcome)
    (descr : String) (rs : List TraceEntry) : List TraceEntry :=
  if hubspotFailed rs then
    let name := extract_name descr
    let fbArgs : ArgDict := [("name", .str name)]
    let g := execute_tool oracle "find_contact_info" fbArgs
    let rs1 := rs ++ [⟨"find_contact_info", fbArgs, g⟩]
    match getSuccess g, getResults g with
    | true, contact :: _ =>
        let subj := "Meeting Request - " ++ name
        let sendArgs : ArgDict :=
          [("to", .str contact.email), ("subject", .str subj),
           ("body", .str (meetingRequestBody contact.name))]
        let recArgs : ArgDict :=
          [("to", .str contact.email), ("subject", .str subj),
           ("body", .str ("Hi " ++ contact.name ++
             ", I\x27d like to schedule an appointment..."))]
        rs1 ++ [⟨"send_email", recArgs, execute_tool oracle "send_email" sendArgs⟩]
    | _, _ => rs1
  else rs

/-- The finalization policy applied to the finished trace (lines 306-315
and 383-391; the two code sites differ only in the failure string, passed
here as `failMsg`): a successful entry whose tool name contains
`"send_email"` → `waiting_response`; else any successful entry →
`completed`; else `failed`. -/
def finalizeResults (failMsg : String) (rs : List TraceEntry) :
    TaskStatus × String :=
  if rs.any (fun r => strContains r.tool "send_email" && getSuccess r.result) then
    (.waiting_response, "Email sent, waiting for response")
  else if rs.any (fun r => getSuccess r.result) then
    (.completed, "Task completed successfully")
  else
    (.failed, failMsg)

/-- The trace built by `_simulate_appointment_scheduling`: CRM search, then
on failure the archive fallback, then on a found candidate one email. -/
def simulateResults (oracle : AdapterId → ArgDict → Outcome)
    (name : String) : List TraceEntry :=
  let qArgs : ArgDict := [("query", .str name)]
  let h := execute_tool oracle "search_hubspot_contacts" qArgs
  let rs := [⟨"search_hubspot_contacts", qArgs, h⟩]
  if ¬getSuccess h then
    let fbArgs : ArgDict := [("name", .str name)]
    let g := execute_tool oracle "find_contact_info" fbArgs
    let rs1 := rs ++ [⟨"find_contact_info", fbArgs, g⟩]
    match getSuccess g, getResults g with
    | true, contact :: _ =>
        let subj := "Meeting Request - " ++ name
        let sendArgs : ArgDict :=
          [("to", .str contact.email), ("subject", .str subj),
           ("body", .str (meetingRequestBodySim contact.name))]
        rs1 ++ [⟨"send_email", sendArgs, execute_tool oracle "send_email" sendArgs⟩]
    | _, _ => rs1
  else rs

/-- One proposed tool call from the planner response; `argsJson` is the
result of `json.loads` on the arguments string (may raise). -/
structure PlannedCall where
  name : String
  argsJson : Except String ArgDict

/-- Environment of one `process_task` pass: whether the owner's `User` row
exists, the planner call (error = any exception raised up to and including
the OpenAI completion call), and the adapter oracle. -/
structure PTEnv where
  userFound : Bool
  planner : Except String (List PlannedCall)
  oracle : AdapterId → ArgDict → Outcome

/-- The proposal loop (lines 255-264): parse each call's arguments and
execute it; a `json.loads` failure aborts the pass with an exception,
discarding the local `results` list accumulated so far. -/
def runCalls (oracle : AdapterId → ArgDict → Outcome) :
    List PlannedCall → Except String (List TraceEntry)
  | [] => .ok []
  | c :: cs =>
      match c.argsJson with
      | .error e => .error e
      | .ok args =>
          let entry : TraceEntry := ⟨c.name, args, execute_tool oracle c.name args⟩
          match runCalls oracle cs with
          | .error e => .error e
          | .ok rest => .ok (entry :: rest)

/-- The `except` handler of `process_task` (lines 326-331): status
`failed`, result `"Error: " + str(e)`; `context["tool_results"]` is left
untouched. -/
def failTask (t : Task) (e : String) : Task :=
  { t with status := .failed, result := some ("Error: " ++ e) }

/-- `AgentService.process_task`.  Returns the final in-memory task, the
list of task snapshots persisted by `db.commit()` in order, and the
function's boolean return value.
* no `User` row: early `return False`, nothing committed, task untouched;
* an exception before the tool-call branch: the handler commits the failed
  task (status moves straight from its current value to `failed`);
* a non-empty proposal list: `in_progress` is committed before any tool
  runs, then the loop, the fallback block, trace write and finalization;
* an empty proposal list: `_simulate_appointment_scheduling` runs with the
  hard-coded name `"selina jones"`. -/
def process_task (env : PTEnv) (task : Task) : Task × List Task × Bool :=
  if ¬env.userFound then (task, [], false)
  else
    match env.planner with
    | .error e =>
        let t := failTask task e
        (t, [t], false)
    | .ok [] =>
        let t1 := { task with status := .in_progress }
        let rs := simulateResults env.oracle "selina jones"
        let fin := finalizeResults "Could not find contact information" rs
        let t2 := { t1 with toolResults := some rs, status := fin.1,
                            result := some fin.2 }
        (t2, [t1, t2], true)
    | .ok (c :: cs) =>
        let t1 := { task with status := .in_progress }
        match runCalls env.oracle (c :: cs) with
        | .error e =>
            let t2 := failTask t1 e
            (t2, [t1, t2], false)
        | .ok rs0 =>
            let rs := fallbackInject env.oracle task.description rs0
            let fin :=
              finalizeResults "Could not complete task - no contacts found" rs
            let t2 := { t1 with toolResults := some rs, status := fin.1,
                                result := some fin.2 }
            (t2, [t1, t2], true)

/-! ## Derived notions used by the verification statements -/

/-- The state-machine edges the specification allows:
`pending → in_progress → {completed, waiting_response, failed}`. -/
def specEdge : TaskStatus → TaskStatus → Bool
  | .pending, .in_progress => true
  | .in_progress, .completed => true
  | .in_progress, .waiting_response => true
  | .in_progress, .failed => true
  | _, _ => false

/-- The edges the code actually realises: the specified ones plus the
direct `pending → failed` edge taken when an exception is raised before
the `in_progress` commit. -/
def codeEdge (a b : TaskStatus) : Bool :=
  specEdge a b || (a == .pending && b == .failed)

/-- The persisted status history of one pass: the status on entry followed
by the statuses of the committed snapshots, in commit order. -/
def statusTrace (env : PTEnv) (task : Task) : List TaskStatus :=
  task.status :: ((process_task env task).2.1.map (fun t => t.status))

/-- Every adjacent pair of the list is an allowed edge. -/
def chainOk (edge : TaskStatus → TaskStatus → Bool) :
    List TaskStatus → Bool
  | [] => true
  | [_] => true
  | a :: b :: t => edge a b && chainOk edge (b :: t)

/-- The `find_contact_info` call the fallback block injects. -/
def fbResult (oracle : AdapterId → ArgDict → Outcome) (descr : String) :
    ToolResult :=
  execute_tool oracle "find_contact_info"
    [("name", .str (extract_name descr))]

/-- The trace entry the fallback block appends for that call. -/
def fbEntry (oracle : AdapterId → ArgDict → Outcome) (descr : String) :
    TraceEntry :=
  ⟨"find_contact_info", [("name", .str (extract_name descr))],
   fbResult oracle descr⟩

/-- The `send_email` trace entry the fallback block appends for the first
candidate. -/
def sendEntry (oracle : AdapterId → ArgDict → Outcome) (descr : String)
    (contact : Contact) : TraceEntry :=
  ⟨"send_email",
   [("to", .str contact.email),
    ("subject", .str ("Meeting Request - " ++ extract_name descr)),
    ("body", .str ("Hi " ++ contact.name ++
      ", I\x27d like to schedule an appointment..."))],
   execute_tool oracle "send_email"
     [("to", .str contact.email),
      ("subject", .str ("Meeting Request - " ++ extract_name descr)),
      ("body", .str (meetingRequestBody contact.name))]⟩

/-- An adapter oracle answering every call with a bare success. -/
def trueOracle : AdapterId → ArgDict → Outcome :=
  fun _ _ => { success := true }

/-! ## C6 — archive fallback: empty result handling and the candidate cap -/

/-- C6: `find_contact_info` with zero matching archived messages returns
`success:true` with an empty results list (not an error), and the returned
results list never holds more than 3 candidates. -/
theorem find_contact_info_empty_ok_and_capped
    (env : GmailEnv) (name : String) (rows : List EmailMsg)
    (hrows : env.emailRows = .ok rows)
    (hnone : matchedContacts rows name = []) :
    find_contact_info env name =
      { success := true, results := [], count := some 0 } ∧
    ∀ env' name', (find_contact_info env' name').results.length ≤ 3 := by
  constructor
  · simp [find_contact_info, hrows, hnone]
  · intro env' name'
    unfold find_contact_info
    cases h : env'.emailRows with
    | error e => simp
    | ok rows' => simp [List.length_take]

/-- C6 witness: the theorem applied to a concrete empty archive. -/
theorem find_contact_info_empty_ok_and_capped_witness :
    find_contact_info ⟨true, .ok [], .ok "m1"⟩ "bob" =
      { success := true, results := [], count := some 0 } ∧
    ∀ env' name', (find_contact_info env' name').results.length ≤ 3 :=
  find_contact_info_empty_ok_and_capped ⟨true, .ok [], .ok "m1"⟩ "bob" []
    rfl rfl

/-! ## C7 — `add_note` against an absent contact -/

/-- C7: when no local contact with the given email exists, `add_note`
issues no remote call and returns `success:false, error:"Contact not
found"`. -/
theorem add_note_absent_contact
    (env : HsEnv) (rows : List HsContactRow) (contactEmail note : String)
    (hrows : env.contactRows = .ok rows)
    (habs : rows.find? (fun c => c.email == contactEmail) = none) :
    add_note env contactEmail note =
      ({ success := false, error := some "Contact not found" }, []) := by
  simp [add_note, hrows, habs]

/-- C7 witness: the theorem applied to a concrete empty contact store. -/
theorem add_note_absent_contact_witness :
    add_note ⟨true, .ok [], .error "down", .error "down", .ok ()⟩
        "sara@example.com" "called" =
      ({ success := false, error := some "Contact not found" }, []) :=
  add_note_absent_contact
    ⟨true, .ok [], .error "down", .error "down", .ok ()⟩ []
    "sara@example.com" "called" rfl rfl

/-! ## C8 — adapter failure policy -/

/-- C8: no adapter operation lets an exception cross the contract
boundary: on every input (including raising database queries, raising
remote calls and a missing linked credential) the call returns an outcome,
every failure outcome carries an error message, and a missing credential
yields the typed "not connected" failure of the respective service. -/
theorem adapters_total_failure_policy :
    (∀ env t s b,
      ((send_email env t s b).success = false →
        (send_email env t s b).error ≠ none) ∧
      (env.account = false → send_email env t s b =
        { success := false, error := some "No Google account connected" })) ∧
    (∀ env q l, (search_emails env q l).success = false →
      (search_emails env q l).error ≠ none) ∧
    (∀ env t s e a,
      ((create_event env t s e a).success = false →
        (create_event env t s e a).error ≠ none) ∧
      (env.account = false → create_event env t s e a =
        { success := false, error := some "No Google account connected" })) ∧
    (∀ env q sd ed, (search_events env q sd ed).success = false →
      (search_events env q sd ed).error ≠ none) ∧
    (∀ env em fn ln co nt,
      ((create_contact env em fn ln co nt).success = false →
        (create_contact env em fn ln co nt).error ≠ none) ∧
      (env.account = false → create_contact env em fn ln co nt =
        { success := false, error := some "No HubSpot account connected" })) ∧
    (∀ env q,
      ((search_contacts env q).success = false →
        (search_contacts env q).error ≠ none) ∧
      (env.account = false → search_contacts env q =
        { success := false
          error := some "HubSpot not connected. Please connect HubSpot first."
          count := some 0 })) ∧
    (∀ env ce n, (add_note env ce n).1.success = false →
      (add_note env ce n).1.error ≠ none) ∧
    (∀ env n, (find_contact_info env n).success = false →
      (find_contact_info env n).error ≠ none) := by
  refine ⟨?_, ?_, ?_, ?_, ?_, ?_, ?_, ?_⟩
  · intro env t s b
    refine ⟨fun h => ?_, fun ha => by simp [send_email, ha]⟩
    unfold send_email at h ⊢
    cases ha : env.account with
    | false => simp [ha]
    | true =>
        cases hs : env.sendResult with
        | error e => simp [ha, hs]
        | ok m => simp [ha, hs] at h
  · intro env q l h
    unfold search_emails at h ⊢
    cases hr : env.emailRows with
    | error e => simp [hr]
    | ok rows => simp [hr] at h
  · intro env t s e a
    refine ⟨fun h => ?_, fun ha => by simp [create_event, ha]⟩
    unfold create_event at h ⊢
    cases ha : env.account with
    | false => simp [ha]
    | true =>
        cases hi : env.insertResult with
        | error e2 => simp [ha, hi]
        | ok evId =>
            cases hc : env.localCommit with
            | error e2 => simp [ha, hi, hc]
            | ok u => simp [ha, hi, hc] at h
  · intro env q sd ed h
    unfold search_events at h ⊢
    cases hr : env.meetingRows with
    | error e => simp [hr]
    | ok rows => simp [hr] at h
  · intro env em fn ln co nt
    refine ⟨fun h => ?_, fun ha => by simp [create_contact, ha]⟩
    unfold create_contact at h ⊢
    cases ha : env.account with
    | false => simp [ha]
    | true =>
        cases hp : env.contactPost with
        | error e => simp [ha, hp]
        | ok resp =>
            by_cases hst : resp.status = 201
            · cases hc : env.localCommit with
              | error e => simp [ha, hp, hst, hc]
              | ok u => simp [ha, hp, hst, hc] at h
            · simp [ha, hp, hst]
  · intro env q
    refine ⟨fun h => ?_, fun ha => by simp [search_contacts, ha]⟩
    unfold search_contacts at h ⊢
    cases ha : env.account with
    | false => simp [ha]
    | true =>
        cases hr : env.contactRows with
        | error e => simp [ha, hr]
        | ok rows => simp [ha, hr] at h
  · intro env ce n h
    unfold add_note at h ⊢
    cases hr : env.contactRows with
    | error e => simp [hr]
    | ok rows =>
        cases hf : rows.find? (fun c => c.email == ce) with
        | none => simp [hr, hf]
        | some contact =>
            cases ha : env.account with
            | false => simp [hr, hf, ha]
            | true =>
                cases hp : env.notePost with
                | error e => simp [hr, hf, ha, hp]
                | ok resp =>
                    by_cases hst : resp.status = 201
                    · cases hc : env.localCommit with
                      | error e => simp [hr, hf, ha, hp, hst, hc]
                      | ok u => simp [hr, hf, ha, hp, hst, hc] at h
                    · simp [hr, hf, ha, hp, hst]
  · intro env n h
    unfold find_contact_info at h ⊢
    cases hr : env.emailRows with
    | error e => simp [hr]
    | ok rows => simp [hr] at h

/-- C8 witness: the theorem at concrete inputs — a missing Google
credential on `send_email`, and an `add_note` pass whose database query
raises. -/
theorem adapters_total_failure_policy_witness :
    send_email ⟨false, .ok [], .ok "m1"⟩ "a@b.c" "subj" "body" =
      { success := false, error := some "No Google account connected" } ∧
    (add_note ⟨true, .error "db down", .error "x", .error "x", .ok ()⟩
        "a@b.c" "note").1.error ≠ none :=
  ⟨(adapters_total_failure_policy.1 ⟨false, .ok [], .ok "m1"⟩
      "a@b.c" "subj" "body").2 rfl,
   adapters_total_failure_policy.2.2.2.2.2.2.1
     ⟨true, .error "db down", .error "x", .error "x", .ok ()⟩
     "a@b.c" "note" rfl⟩

/-! ## C3 — the deterministic fallback chain -/

/-- C3: a failed CRM search outcome in the trace triggers exactly one
appended `find_contact_info` call; a trace whose CRM search outcomes all
succeeded (in particular one successful-but-empty search) is left
unchanged; and when the injected fallback succeeds with at least one
candidate, exactly one `send_email` call addressed to the first
candidate's email is appended after it. -/
theorem fallback_injection_policy
    (oracle : AdapterId → ArgDict → Outcome) (descr : String)
    (rs : List TraceEntry) :
    (hubspotFailed rs = false → fallbackInject oracle descr rs = rs) ∧
    ((∀ r ∈ rs, r.tool = "search_hubspot_contacts" →
        getSuccess r.result = true) →
      fallbackInject oracle descr rs = rs) ∧
    (hubspotFailed rs = true →
      ((getSuccess (fbResult oracle descr) = false ∨
          getResults (fbResult oracle descr) = []) →
        fallbackInject oracle descr rs = rs ++ [fbEntry oracle descr]) ∧
      (∀ contact rest,
        getSuccess (fbResult oracle descr) = true →
        getResults (fbResult oracle descr) = contact :: rest →
        fallbackInject oracle descr rs =
          rs ++ [fbEntry oracle descr, sendEntry oracle descr contact] ∧
        argLookup (sendEntry oracle descr contact).arguments "to" =
          some (.str contact.email) ∧
        (sendEntry oracle descr contact).tool = "send_email")) := by
  refine ⟨fun h => by simp [fallbackInject, h], ?_, fun h => ⟨?_, ?_⟩⟩
  · intro hall
    have hf : hubspotFailed rs = false := by
      unfold hubspotFailed
      rw [List.any_eq_false]
      intro r hr
      cases ht : r.tool == "search_hubspot_contacts" with
      | false => simp [ht]
      | true =>
          have hsucc := hall r hr (by simpa using ht)
          simp [ht, hsucc]
    simp [fallbackInject, hf]
  · intro hcase
    cases hg : getSuccess (fbResult oracle descr) with
    | false =>
        unfold fbResult at hg
        simp [fallbackInject, h, fbEntry, fbResult, hg]
    | true =>
        have hres : getResults (fbResult oracle descr) = [] := by
          rcases hcase with hc | hc
          · rw [hg] at hc; cases hc
          · exact hc
        unfold fbResult at hg hres
        simp [fallbackInject, h, fbEntry, fbResult, hg, hres]
  · intro contact rest hg hres
    refine ⟨?_, by simp [sendEntry, argLookup], rfl⟩
    unfold fbResult at hg hres
    simp [fallbackInject, h, fbEntry, fbResult, sendEntry, hg, hres]

/-- Concrete candidate used by the C3 witness. -/
def ctC3 : Contact :=
  ⟨"Sara Smith", "sara.smith@example.com", "gmail", "2024-01-01T00:00:00"⟩

/-- Concrete adapter oracle used by the C3 witness: CRM not connected,
archive lookup finds one candidate, email send succeeds. -/
def orcC3 : AdapterId → ArgDict → Outcome := fun a _ =>
  match a with
  | .findContactInfo => { success := true, results := [ctC3] }
  | .sendEmail => { success := true }
  | _ =>
      { success := false
        error := some "HubSpot not connected. Please connect HubSpot first." }

/-- Concrete task description used by the C3 witness. -/
def dscC3 : String := "Schedule an appointment with Sara Smith"

/-- Concrete trace used by the C3 witness: one failed CRM search. -/
def trcC3 : List TraceEntry :=
  [⟨"search_hubspot_contacts", [("query", .str "sara smith")],
    .outcome
      { success := false
        error := some "HubSpot not connected. Please connect HubSpot first." }⟩]

/-- C3 witness: the theorem at the concrete failing CRM search, every
hypothesis discharged by evaluation. -/
theorem fallback_injection_policy_witness :
    fallbackInject orcC3 dscC3 trcC3 =
      trcC3 ++ [fbEntry orcC3 dscC3, sendEntry orcC3 dscC3 ctC3] ∧
    argLookup (sendEntry orcC3 dscC3 ctC3).arguments "to" =
      some (.str ctC3.email) ∧
    (sendEntry orcC3 dscC3 ctC3).tool = "send_email" :=
  ((fallback_injection_policy orcC3 dscC3 trcC3).2.2 (by decide)).2
    ctC3 [] (by decide) (by decide)

/-! ## C4 — proposal validation -/

/-- A name outside the capability set falls through the whole if/elif
chain. -/
lemma toolSig_eq_none (name : String) (h : name ∉ knownToolNames) :
    toolSig name = none := by
  simp [knownToolNames] at h
  obtain ⟨h1, h2, h3, h4, h5, h6, h7, h8⟩ := h
  simp [toolSig, h1, h2, h3, h4, h5, h6, h7, h8]

/-- Whether a key lookup succeeds depends only on the key set. -/
lemma argLookup_isSome_of_keys (args args' : ArgDict)
    (h : argKeys args = argKeys args') (k : String) :
    (argLookup args k).isSome = (argLookup args' k).isSome := by
  induction args generalizing args' with
  | nil =>
      cases args' with
      | nil => rfl
      | cons b t => simp [argKeys] at h
  | cons a t ih =>
      cases args' with
      | nil => simp [argKeys] at h
      | cons b t' =>
          simp only [argKeys, List.map_cons, List.cons.injEq] at h
          obtain ⟨h1, h2⟩ := h
          by_cases hk : a.1 = k
          · simp [argLookup, hk, h1 ▸ hk]
          · simp only [argLookup, if_neg hk, if_neg (h1 ▸ hk)]
            exact ih t' h2

/-- Keyword binding inspects only the key set, never the values. -/
lemma bindsOk_keys (decl : List (String × JTy)) (req : List String)
    (args args' : ArgDict) (h : argKeys args = argKeys args') :
    bindsOk decl req args = bindsOk decl req args' := by
  unfold bindsOk
  have hreq : (fun k => (argLookup args k).isSome) =
      (fun k => (argLookup args' k).isSome) :=
    funext (argLookup_isSome_of_keys args args' h)
  have hall : ∀ (xs : ArgDict),
      xs.all (fun kv => decl.any (fun d => d.1 == kv.1)) =
        (argKeys xs).all (fun k => decl.any (fun d => d.1 == k)) := by
    intro xs
    induction xs with
    | nil => rfl
    | cons a t ih => simp only [argKeys, List.map_cons, List.all_cons, ih]
  rw [hreq, hall args, hall args', h]

/-- C4 (amended): a proposal naming a tool outside the capability set is
never dispatched to an adapter — `execute_tool` returns the ordinary
`{"error": "Unknown tool: <name>"}` dict, recorded in the trace in the
same `{tool, arguments, result}` shape as executed outcomes; and the
dispatch decision depends only on the argument key set, so argument values
are never validated against the declared schema before an adapter runs. -/
theorem proposal_validation_policy :
    (∀ oracle name args, name ∉ knownToolNames →
      dispatchTool name args = .unknown name ∧
      execute_tool oracle name args =
        .errorDict ("Unknown tool: " ++ name)) ∧
    (∀ name args args', argKeys args = argKeys args' →
      dispatchTool name args = dispatchTool name args') := by
  constructor
  · intro oracle name args h
    have hs := toolSig_eq_none name h
    exact ⟨by simp [dispatchTool, hs], by simp [execute_tool, dispatchTool, hs]⟩
  · intro name args args' h
    cases hsig : toolSig name with
    | none => simp [dispatchTool, hsig]
    | some sig =>
        obtain ⟨a, decl, req⟩ := sig
        simp [dispatchTool, hsig, bindsOk_keys decl req args args' h]

/-- C4 witness: the theorem at a concrete unknown tool name and at two
dicts with equal keys but different values. -/
theorem proposal_validation_policy_witness :
    (dispatchTool "sendEmail" [("to", .str "x")] = .unknown "sendEmail" ∧
     execute_tool trueOracle "sendEmail" [("to", .str "x")] =
       .errorDict ("Unknown tool: " ++ "sendEmail")) ∧
    dispatchTool "send_email"
        [("to", .str "a"), ("subject", .str "b"), ("body", .str "c")] =
      dispatchTool "send_email"
        [("to", .num 1), ("subject", .str "b"), ("body", .str "c")] :=
  ⟨proposal_validation_policy.1 trueOracle "sendEmail" [("to", .str "x")]
      (by decide),
   proposal_validation_policy.2 "send_email"
     [("to", .str "a"), ("subject", .str "b"), ("body", .str "c")]
     [("to", .num 1), ("subject", .str "b"), ("body", .str "c")] rfl⟩

/-- C4 counterexample: a proposal whose arguments fail the declared schema
(`limit` must be an integer) is nevertheless dispatched to and executed
against the `search_emails` adapter, and an unknown-tool proposal is
recorded with the same result shape as a caught adapter error — the claim
that schema-failing proposals are never executed and that rejections get a
distinct entry kind is false on this input. -/
theorem proposal_validation_counterexample :
    schemaValidates "search_emails"
        [("query", .str "sara"), ("limit", .str "10")] = false ∧
    dispatchTool "search_emails"
        [("query", .str "sara"), ("limit", .str "10")] =
      .executed .searchEmails ∧
    execute_tool trueOracle "search_emails"
        [("query", .str "sara"), ("limit", .str "10")] =
      .outcome { success := true } ∧
    execute_tool trueOracle "not_a_tool" [] =
      .errorDict ("Unknown tool: " ++ "not_a_tool") :=
  ⟨by decide, by decide, rfl, rfl⟩

/-! ## C1 — the task state machine -/

/-- Finalization yields exactly one of the three terminal outcomes. -/
lemma finalizeResults_cases (failMsg : String) (rs : List TraceEntry) :
    finalizeResults failMsg rs =
      (.waiting_response, "Email sent, waiting for response") ∨
    finalizeResults failMsg rs = (.completed, "Task completed successfully") ∨
    finalizeResults failMsg rs = (.failed, failMsg) := by
  unfold finalizeResults
  by_cases h1 : rs.any (fun r =>
      strContains r.tool "send_email" && getSuccess r.result) = true
  · simp [h1]
  · by_cases h2 : rs.any (fun r => getSuccess r.result) = true
    · simp [h1, h2]
    · simp [h1, h2]

/-- C1 (amended): starting from `pending`, every persisted status history
of a processing pass follows
`pending → in_progress → {completed, waiting_response, failed}` extended
by the direct `pending → failed` edge taken when an exception is raised
before the `in_progress` commit; and whenever the planner call returns,
the first committed snapshot is the `in_progress` one, persisted before
any tool outcome is recorded. -/
theorem task_status_edges (env : PTEnv) (task : Task)
    (h : task.status = .pending) :
    chainOk codeEdge (statusTrace env task) = true ∧
    (env.userFound = true → ∀ calls, env.planner = .ok calls →
      ((process_task env task).2.1.head?.map
          (fun t => (t.status, t.toolResults))) =
        some (.in_progress, task.toolResults)) := by
  constructor
  · unfold statusTrace
    by_cases hu : env.userFound
    · cases hp : env.planner with
      | error e =>
          simp [process_task, hu, hp, failTask, h, chainOk, codeEdge, specEdge]
      | ok calls =>
          cases calls with
          | nil =>
              rcases finalizeResults_cases "Could not find contact information"
                  (simulateResults env.oracle "selina jones") with hf | hf | hf <;>
                simp [process_task, hu, hp, h, hf, chainOk, codeEdge, specEdge]
          | cons c cs =>
              cases hr : runCalls env.oracle (c :: cs) with
              | error e =>
                  simp [process_task, hu, hp, hr, failTask, h, chainOk,
                    codeEdge, specEdge]
              | ok rs0 =>
                  rcases finalizeResults_cases
                      "Could not complete task - no contacts found"
                      (fallbackInject env.oracle task.description rs0) with
                    hf | hf | hf <;>
                    simp [process_task, hu, hp, hr, h, hf, chainOk, codeEdge,
                      specEdge]
    · simp [process_task, hu, chainOk]
  · intro hu calls hp
    cases calls with
    | nil => simp [process_task, hu, hp]
    | cons c cs =>
        cases hr : runCalls env.oracle (c :: cs) with
        | error e => simp [process_task, hu, hp, hr, failTask]
        | ok rs0 => simp [process_task, hu, hp, hr]

/-- Concrete environment for the C1 witness: planner returns no calls. -/
def envC1w : PTEnv :=
  ⟨true, .ok [], fun _ _ => { success := false, error := some "x" }⟩

/-- Concrete pending task shared by the C1 witness. -/
def tskC1w : Task := ⟨.pending, none, none, "follow up with sara"⟩

/-- C1 witness: the theorem at the concrete pass, hypotheses discharged. -/
theorem task_status_edges_witness :
    chainOk codeEdge (statusTrace envC1w tskC1w) = true ∧
    ((process_task envC1w tskC1w).2.1.head?.map
        (fun t => (t.status, t.toolResults))) =
      some (.in_progress, tskC1w.toolResults) :=
  ⟨(task_status_edges envC1w tskC1w rfl).1,
   (task_status_edges envC1w tskC1w rfl).2 rfl [] rfl⟩

/-- Concrete environment for the C1 counterexample: the OpenAI call
raises before the `in_progress` transition. -/
def envC1x : PTEnv := ⟨true, .error "OpenAI API connection error", trueOracle⟩

/-- Concrete pending task for the C1 counterexample. -/
def tskC1x : Task :=
  ⟨.pending, none, none, "Schedule an appointment with Sara Smith"⟩

/-- C1 counterexample: an exception before the `in_progress` commit
drives the persisted history `pending → failed`, an edge outside the
claimed set — the claim as stated is false on this input. -/
theorem task_status_edges_counterexample :
    statusTrace envC1x tskC1x = [.pending, .failed] ∧
    chainOk specEdge (statusTrace envC1x tskC1x) = false := by
  exact ⟨by decide, by decide⟩

/-! ## C2 — finalization policy -/

/-- C2 (amended): after the proposal loop and any injected fallback calls,
the final status is `waiting_response` on a successful entry whose tool
name contains `"send_email"`, else `completed` on any successful entry,
else `failed`; the result strings are
"Email sent, waiting for response" / "Task completed successfully" /
"Could not complete task - no contacts found" (planner-proposal pass) and
"Could not find contact information" (zero-proposal pass). -/
theorem finalization_policy (env : PTEnv) (task : Task)
    (hu : env.userFound = true) :
    (∀ c cs rs0, env.planner = .ok (c :: cs) →
      runCalls env.oracle (c :: cs) = .ok rs0 →
      (process_task env task).1.toolResults =
        some (fallbackInject env.oracle task.description rs0) ∧
      (process_task env task).1.status =
        (finalizeResults "Could not complete task - no contacts found"
          (fallbackInject env.oracle task.description rs0)).1 ∧
      (process_task env task).1.result =
        some (finalizeResults "Could not complete task - no contacts found"
          (fallbackInject env.oracle task.description rs0)).2) ∧
    (env.planner = .ok [] →
      (process_task env task).1.toolResults =
        some (simulateResults env.oracle "selina jones") ∧
      (process_task env task).1.status =
        (finalizeResults "Could not find contact information"
          (simulateResults env.oracle "selina jones")).1 ∧
      (process_task env task).1.result =
        some (finalizeResults "Could not find contact information"
          (simulateResults env.oracle "selina jones")).2) ∧
    (∀ failMsg rs,
      (rs.any (fun r => strContains r.tool "send_email" &&
          getSuccess r.result) = true →
        finalizeResults failMsg rs =
          (.waiting_response, "Email sent, waiting for response")) ∧
      (rs.any (fun r => strContains r.tool "send_email" &&
          getSuccess r.result) = false →
        rs.any (fun r => getSuccess r.result) = true →
        finalizeResults failMsg rs =
          (.completed, "Task completed successfully")) ∧
      (rs.any (fun r => getSuccess r.result) = false →
        finalizeResults failMsg rs = (.failed, failMsg))) := by
  refine ⟨?_, ?_, ?_⟩
  · intro c cs rs0 hp hr
    refine ⟨?_, ?_, ?_⟩ <;> simp [process_task, hu, hp, hr]
  · intro hp
    refine ⟨?_, ?_, ?_⟩ <;> simp [process_task, hu, hp]
  · intro failMsg rs
    refine ⟨fun h1 => by simp [finalizeResults, h1],
            fun h1 h2 => by simp [finalizeResults, h1, h2], fun hall => ?_⟩
    have hsend : rs.any (fun r => strContains r.tool "send_email" &&
        getSuccess r.result) = false := by
      rw [List.any_eq_false] at hall ⊢
      intro r hr
      have hfalse := hall r hr
      simp only [Bool.not_eq_true] at hfalse
      simp [hfalse]
    simp [finalizeResults, hsend, hall]

/-- Concrete environment for the C2 witness: planner proposes nothing and
every adapter fails, so the pass finalizes as `failed`. -/
def envC2w : PTEnv :=
  ⟨true, .ok [], fun _ _ => { success := false, error := some "down" }⟩

/-- Concrete pending task for the C2 witness. -/
def tskC2w : Task := ⟨.pending, none, none, "follow up"⟩

/-- C2 witness: the theorem at the concrete zero-proposal pass and at a
concrete trace with no successful entry. -/
theorem finalization_policy_witness :
    ((process_task envC2w tskC2w).1.toolResults =
        some (simulateResults envC2w.oracle "selina jones") ∧
      (process_task envC2w tskC2w).1.status =
        (finalizeResults "Could not find contact information"
          (simulateResults envC2w.oracle "selina jones")).1 ∧
      (process_task envC2w tskC2w).1.result =
        some (finalizeResults "Could not find contact information"
          (simulateResults envC2w.oracle "selina jones")).2) ∧
    finalizeResults "Could not find contact information" [] =
      (.failed, "Could not find contact information") :=
  ⟨(finalization_policy envC2w tskC2w rfl).2.1 rfl,
   ((finalization_policy envC2w tskC2w rfl).2.2
     "Could not find contact information" []).2.2 rfl⟩

/-- Concrete CRM-search proposal for the C2 counterexample. -/
def crmCallX : PlannedCall :=
  ⟨"search_hubspot_contacts", .ok [("query", .str "sara smith")]⟩

/-- Concrete environment for the C2 counterexample (reuses the C3 oracle:
CRM fails, archive lookup finds a candidate, the email send succeeds). -/
def envC2x : PTEnv := ⟨true, .ok [crmCallX], orcC3⟩

/-- Concrete pending task for the C2 counterexample. -/
def tskC2x : Task :=
  ⟨.pending, none, none, "Schedule an appointment with Sara Smith"⟩

/-- C2 counterexample: a pass with a successful `send_email` outcome ends
in `waiting_response` as claimed, but its result string is
"Email sent, waiting for response", not the claimed
"email sent, awaiting reply" — the claim as stated is false on this
input. -/
theorem finalization_policy_counterexample :
    ((process_task envC2x tskC2x).1.toolResults.getD []).any
        (fun r => r.tool == "send_email" && getSuccess r.result) = true ∧
    (process_task envC2x tskC2x).1.status = .waiting_response ∧
    (process_task envC2x tskC2x).1.result =
      some "Email sent, waiting for response" ∧
    (process_task envC2x tskC2x).1.result ≠
      some "email sent, awaiting reply" := by
  exact ⟨by decide, by decide, by decide, by decide⟩

/-! ## C5 — the exception path -/

/-- C5 (amended): on any uncaught exception during a pass the task ends
`failed` with result `"Error: " + message` (the prefixed string, not the
bare message), and `context["tool_results"]` is left at its pre-pass
value — outcomes recorded during the failing pass are lost, not
preserved. -/
theorem exception_path_policy (env : PTEnv) (task : Task)
    (hu : env.userFound = true) :
    (∀ e, env.planner = .error e →
      (process_task env task).1.status = .failed ∧
      (process_task env task).1.result = some ("Error: " ++ e) ∧
      (process_task env task).1.toolResults = task.toolResults ∧
      (process_task env task).2.1 = [failTask task e]) ∧
    (∀ c cs e, env.planner = .ok (c :: cs) →
      runCalls env.oracle (c :: cs) = .error e →
      (process_task env task).1.status = .failed ∧
      (process_task env task).1.result = some ("Error: " ++ e) ∧
      (process_task env task).1.toolResults = task.toolResults) := by
  constructor
  · intro e hp
    refine ⟨?_, ?_, ?_, ?_⟩ <;> simp [process_task, hu, hp, failTask]
  · intro c cs e hp hr
    refine ⟨?_, ?_, ?_⟩ <;> simp [process_task, hu, hp, hr, failTask]

/-- Concrete environment for the C5 witness: the planner call raises. -/
def envC5w : PTEnv := ⟨true, .error "boom", trueOracle⟩

/-- Concrete pending task for the C5 witness. -/
def tskC5w : Task := ⟨.pending, none, none, "check in with bob"⟩

/-- C5 witness: the theorem at the concrete raising pass. -/
theorem exception_path_policy_witness :
    (process_task envC5w tskC5w).1.status = .failed ∧
    (process_task envC5w tskC5w).1.result = some ("Error: " ++ "boom") ∧
    (process_task envC5w tskC5w).1.toolResults = tskC5w.toolResults ∧
    (process_task envC5w tskC5w).2.1 = [failTask tskC5w "boom"] :=
  (exception_path_policy envC5w tskC5w rfl).1 "boom" rfl

/-- Concrete environment for the C5 counterexample: the first proposal
executes, the second proposal's `json.loads` raises. -/
def envC5x : PTEnv :=
  ⟨true,
   .ok [⟨"search_hubspot_contacts", .ok [("query", .str "sara")]⟩,
        ⟨"send_email", .error "boom"⟩],
   trueOracle⟩

/-- Concrete pending task for the C5 counterexample. -/
def tskC5x : Task := ⟨.pending, none, none, "email sara"⟩

/-- C5 counterexample: the pass fails after one tool has executed, yet the
final result is the prefixed `"Error: boom"` (not the exception's message
`"boom"`) and `context.tool_results` holds no outcome at all — the claim
as stated is false on this input. -/
theorem exception_path_counterexample :
    (process_task envC5x tskC5x).1.status = .failed ∧
    (process_task envC5x tskC5x).1.result = some "Error: boom" ∧
    (process_task envC5x tskC5x).1.result ≠ some "boom" ∧
    (process_task envC5x tskC5x).1.toolResults = none := by
  exact ⟨by decide, by decide, by decide, rfl⟩

/-! ## C9 — the name heuristic -/

/-- String payload of a looked-up JSON argument (for decidable
statements about recorded arguments). -/
def asStr : Option JValue → Option String
  | some (.str s) => some s
  | _ => none

/-- The first trace entry of the deterministic minimal workflow is always
the CRM search for the supplied name. -/
lemma simulateResults_head (oracle : AdapterId → ArgDict → Outcome)
    (name : String) :
    (simulateResults oracle name).head? =
      some ⟨"search_hubspot_contacts", [("query", .str name)],
        execute_tool oracle "search_hubspot_contacts"
          [("query", .str name)]⟩ := by
  unfold simulateResults
  by_cases hg : getSuccess (execute_tool oracle "search_hubspot_contacts"
      [("query", .str name)]) = true
  · simp [hg]
  · simp only [hg, Bool.false_eq_true, not_false_eq_true, if_true,
      Bool.not_eq_true] at *
    simp [hg]
    split <;> simp

/-- C9 (amended): the fallback name is the lowercased token sequence after
the first `"with"` that has a successor token; when the description has no
such token the hard-coded default `"selina jones"` is used — task context
is never consulted; and the zero-proposal minimal workflow always runs
with the literal name `"selina jones"`. -/
theorem fallback_name_policy (env : PTEnv) (task : Task)
    (hu : env.userFound = true) (hp : env.planner = .ok []) :
    ((process_task env task).1.toolResults.getD []).head?.map
        (fun r => (r.tool, asStr (argLookup r.arguments "query"))) =
      some ("search_hubspot_contacts", some "selina jones") ∧
    (∀ descr, extractAfterWith (wordsOf descr) = none →
      extract_name descr = "selina jones") ∧
    (∀ descr s, extractAfterWith (wordsOf descr) = some s →
      extract_name descr = s) ∧
    (∀ oracle descr, (fbEntry oracle descr).arguments =
      [("name", .str (extract_name descr))]) := by
  refine ⟨?_, ?_, ?_, fun oracle descr => rfl⟩
  · have hhead := simulateResults_head env.oracle "selina jones"
    simp [process_task, hu, hp, hhead, argLookup, asStr]
  · intro descr hnone
    simp [extract_name, hnone]
  · intro descr s hsome
    simp [extract_name, hsome]

/-- C9 witness: the theorem at a concrete zero-proposal pass, hypotheses
discharged. -/
theorem fallback_name_policy_witness :
    ((process_task envC2w tskC1x).1.toolResults.getD []).head?.map
        (fun r => (r.tool, asStr (argLookup r.arguments "query"))) =
      some ("search_hubspot_contacts", some "selina jones") ∧
    extract_name "Schedule an appointment with Sara Smith" = "sara smith" :=
  ⟨(fallback_name_policy envC2w tskC1x rfl rfl).1,
   (fallback_name_policy envC2w tskC1x rfl rfl).2.2.1
     "Schedule an appointment with Sara Smith" "sara smith" (by decide)⟩

/-- Concrete oracle for the C9 counterexample: the CRM search fails, the
archive lookup finds nothing. -/
def orcC9 : AdapterId → ArgDict → Outcome := fun a _ =>
  match a with
  | .searchHubspotContacts =>
      { success := false
        error := some "HubSpot not connected. Please connect HubSpot first." }
  | _ => { success := false, error := some "nothing found" }

/-- Concrete environment for the C9 counterexample. -/
def envC9 : PTEnv :=
  ⟨true, .ok [⟨"search_hubspot_contacts", .ok [("query", .str "the team")]⟩],
   orcC9⟩

/-- Concrete pending task for the C9 counterexample: the description has
no `"with"` token, and its context supplies no name the code would read. -/
def tskC9 : Task := ⟨.pending, none, none, "Schedule a meeting for tomorrow"⟩

/-- C9 counterexample: with no `"with"` token in the description, the
injected fallback call uses the hard-coded name `"selina jones"` — not a
name taken from caller-supplied task context — so the claim as stated is
false on this input. -/
theorem fallback_name_counterexample :
    extract_name "Schedule a meeting for tomorrow" = "selina jones" ∧
    ((process_task envC9 tskC9).1.toolResults.getD []).map
        (fun r => (r.tool, asStr (argLookup r.arguments "name"))) =
      [("search_hubspot_contacts", none),
       ("find_contact_info", some "selina jones")] := by
  exact ⟨by decide, by decide⟩

/-! ## C10 — every completed pass sets a result -/

/-- C10 (amended): whenever the owner's `User` row resolves, the pass ends
with a non-empty result string (finalization, minimal workflow and
exception paths alike); but when the owner resolves to no user,
`process_task` returns `False` leaving the task — including a null
result — untouched. -/
theorem result_always_set (env : PTEnv) (task : Task) :
    (env.userFound = true →
      ∃ s, (process_task env task).1.result = some s ∧ 0 < s.length) ∧
    (env.userFound = false →
      (process_task env task).1 = task ∧
      (process_task env task).2.2 = false) := by
  constructor
  · intro hu
    cases hp : env.planner with
    | error e =>
        refine ⟨"Error: " ++ e, by simp [process_task, hu, hp, failTask], ?_⟩
        have h7 : ("Error: " ++ e).length = "Error: ".length + e.length :=
          String.length_append _ _
        have h8 : "Error: ".length = 7 := by decide
        rw [h7, h8]
        omega
    | ok calls =>
        cases calls with
        | nil =>
            rcases finalizeResults_cases "Could not find contact information"
                (simulateResults env.oracle "selina jones") with hf | hf | hf
            · exact ⟨"Email sent, waiting for response",
                by simp [process_task, hu, hp, hf], by decide⟩
            · exact ⟨"Task completed successfully",
                by simp [process_task, hu, hp, hf], by decide⟩
            · exact ⟨"Could not find contact information",
                by simp [process_task, hu, hp, hf], by decide⟩
        | cons c cs =>
            cases hr : runCalls env.oracle (c :: cs) with
            | error e =>
                refine ⟨"Error: " ++ e,
                  by simp [process_task, hu, hp, hr, failTask], ?_⟩
                have h7 : ("Error: " ++ e).length =
                    "Error: ".length + e.length := String.length_append _ _
                have h8 : "Error: ".length = 7 := by decide
                rw [h7, h8]
                omega
            | ok rs0 =>
                rcases finalizeResults_cases
                    "Could not complete task - no contacts found"
                    (fallbackInject env.oracle task.description rs0) with
                  hf | hf | hf
                · exact ⟨"Email sent, waiting for response",
                    by simp [process_task, hu, hp, hr, hf], by decide⟩
                · exact ⟨"Task completed successfully",
                    by simp [process_task, hu, hp, hr, hf], by decide⟩
                · exact ⟨"Could not complete task - no contacts found",
                    by simp [process_task, hu, hp, hr, hf], by decide⟩
  · intro hu
    constructor <;> simp [process_task, hu]

/-- C10 witness: the theorem at a concrete resolving pass. -/
theorem result_always_set_witness :
    ∃ s, (process_task envC2w tskC2w).1.result = some s ∧ 0 < s.length :=
  (result_always_set envC2w tskC2w).1 rfl

/-- Concrete environment for the C10 counterexample: the owner reference
resolves to no user. -/
def envC10x : PTEnv := ⟨false, .ok [], trueOracle⟩

/-- Concrete pending task with a null result for the C10 counterexample. -/
def tskC10x : Task := ⟨.pending, none, none, "say hi"⟩

/-- C10 counterexample: the pass returns (`False`) with the task's result
still null — the claim that every returned pass leaves a non-empty result,
including the missing-owner case, is false on this input. -/
theorem result_always_set_counterexample :
    (process_task envC10x tskC10x).2.2 = false ∧
    (process_task envC10x tskC10x).1.result = none := by
  exact ⟨rfl, rfl⟩

end AgentCore
